import Mathlib

/-!
Verification of the `unifi_dual_ip_update_route53` repository.

The repository holds two independent Python entry points:
* Flow A (`src/main.py`): query a public IP-echo endpoint, then upsert one
  A record into a Route53 hosted zone.
* Flow B (`src/unifi_ddns/main.py`): log into a UniFi controller, list its
  devices, pick the first gateway-typed device, read its WAN IPv4/IPv6, and
  upsert A/AAAA records into a Route53 hosted zone.

The network is modelled by "world" values that fix the outcome of each
outbound call; each run is a pure function from configuration and world to
an exit code, the list of network calls issued, and the report of the DNS
step.  All definitions follow the Python source line by line.
-/

/-- Python `str.strip()` with no argument: remove leading and trailing
whitespace characters. -/
def pyStrip (s : String) : String :=
  ⟨((s.data.dropWhile Char.isWhitespace).reverse.dropWhile Char.isWhitespace).reverse⟩

/-- Python `str.lower()`: lower-case every character. -/
def pyLower (s : String) : String :=
  ⟨s.data.map Char.toLower⟩

/-- Python truthiness of an optional string: `None` and `""` are falsy,
every other string is truthy (used by `not all([...])`, `if ipv4:`,
`if current_ip:` in both entry points). -/
def truthy : Option String → Bool
  | none => false
  | some s => s != ""

/-- Embeds `str_to_bool` from `src/unifi_ddns/main.py`:
`value is not None and value.lower() in ('true', '1', 't', 'y', 'yes')`. -/
def str_to_bool (value : Option String) : Bool :=
  match value with
  | none => false
  | some s => ["true", "1", "t", "y", "yes"].contains (pyLower s)

/-- Outcome of the UniFi login POST as seen by the client: either the
transport layer failed (`requests` raised) or a final HTTP status came back. -/
inductive LoginResult where
  | transportError
  | status (code : Nat)
deriving DecidableEq

/-- Embeds `unifi_login` from `src/unifi_ddns/main.py`: returns `False` on
status 401, `False` when `raise_for_status` raises (status 400-599) or on a
transport error, and `True` otherwise. -/
def unifi_login : LoginResult → Bool
  | .transportError => false
  | .status code =>
      if code == 401 then false
      else if 400 ≤ code ∧ code < 600 then false
      else true

/-- Shape of the `ipv6` value inside a device's `wan1` JSON sub-object:
may be missing, may be a non-list JSON value, or a list of strings. -/
inductive Ipv6Field where
  | absent
  | notAList
  | someList (addrs : List String)
deriving DecidableEq

/-- The `wan1` sub-object of a device: optional `ip` field and the `ipv6`
field. -/
structure WanInfo where
  ip : Option String
  ipv6 : Ipv6Field
deriving DecidableEq

/-- A device record from the controller's `stat/device` response, with the
fields the program reads (`type`, `name`, `model`, `wan1`). -/
structure Device where
  type : Option String
  name : Option String
  model : Option String
  wan1 : Option WanInfo
deriving DecidableEq

/-- The membership test `device.get('type') in ['ugw', 'udm', 'ucg']` from
`get_gateway_info`. -/
def isGatewayDevice (d : Device) : Bool :=
  match d.type with
  | none => false
  | some t => ["ugw", "udm", "ucg"].contains t

/-- The scan loop of `get_gateway_info`: return the first device whose type
is a gateway type, else `None`. -/
def find_gateway : List Device → Option Device
  | [] => none
  | d :: rest => if isGatewayDevice d then some d else find_gateway rest

/-- Outcome of the device-list GET: transport failure, JSON decode failure,
or a parsed `data` list (`response.json().get('data', [])`). -/
inductive DeviceListResult where
  | transportError
  | jsonError
  | ok (data : List Device)
deriving DecidableEq

/-- Embeds `get_gateway_info` from `src/unifi_ddns/main.py`: `None` on
transport or JSON errors, otherwise the first gateway-typed device. -/
def get_gateway_info : DeviceListResult → Option Device
  | .transportError => none
  | .jsonError => none
  | .ok data => find_gateway data

/-- The default `{}` used by `gateway_device.get('wan1', {})`. -/
def emptyWan : WanInfo := { ip := none, ipv6 := .absent }

/-- IPv4 extraction in `main` of `src/unifi_ddns/main.py`:
`wan_info = gateway_device.get('wan1', {})` then `ipv4 = wan_info.get('ip')`. -/
def extract_ipv4 (d : Device) : Option String :=
  (d.wan1.getD emptyWan).ip

/-- IPv6 extraction in `main` of `src/unifi_ddns/main.py`:
`ipv6 = ipv6_list[0] if isinstance(ipv6_list, list) and ipv6_list else None`. -/
def extract_ipv6 (d : Device) : Option String :=
  match (d.wan1.getD emptyWan).ipv6 with
  | .someList (a :: _) => some a
  | _ => none

/-- One `ResourceRecordSet` entry of a Route53 change. -/
structure ResourceRecordSet where
  name : String
  rtype : String
  ttl : Nat
  values : List String
deriving DecidableEq

/-- One entry of the `Changes` list of a Route53 change batch. -/
structure Change where
  action : String
  recordSet : ResourceRecordSet
deriving DecidableEq

/-- Outcome of the `change_resource_record_sets` call as `src/unifi_ddns/main.py`
distinguishes it: success (with the optional `ChangeInfo.Id`), missing AWS
credentials (`NoCredentialsError`), or a provider rejection (`ClientError`
carrying the provider's error message). -/
inductive Route53Outcome where
  | success (changeId : Option String)
  | noCredentials
  | clientError (message : String)
deriving DecidableEq

/-- The network calls a run can issue, in order of issue. -/
inductive NetCall where
  | unifiLogin
  | deviceList
  | echoGet
  | route53Upsert (zoneId : String) (comment : String) (changes : List Change)
deriving DecidableEq

/-- What `update_route53_records` prints about the DNS step. -/
inductive UpdateReport where
  | skipped
  | submitted (changeId : String)
  | credentialsError
  | providerError (message : String)
deriving DecidableEq

/-- The `Changes` list built by `update_route53_records`: one UPSERT A entry
when `ipv4` is truthy, then one UPSERT AAAA entry when `ipv6` is truthy,
each with TTL 300. -/
def buildChanges (record_name : String) (ipv4 ipv6 : Option String) : List Change :=
  (if truthy ipv4 then
      [{ action := "UPSERT",
         recordSet := { name := record_name, rtype := "A", ttl := 300,
                        values := [ipv4.getD ""] } }]
    else [])
  ++ (if truthy ipv6 then
      [{ action := "UPSERT",
         recordSet := { name := record_name, rtype := "AAAA", ttl := 300,
                        values := [ipv6.getD ""] } }]
    else [])

/-- Embeds `update_route53_records` from `src/unifi_ddns/main.py`: skip when
`not any([ipv4, ipv6])`; otherwise one batched upsert call with comment
"Automated DDNS update"; `NoCredentialsError` and `ClientError` are caught
and only reported, the function returns normally in every case. -/
def update_route53_records (zone_id record_name : String) (ipv4 ipv6 : Option String)
    (region : String) (outcome : Route53Outcome) : List NetCall × UpdateReport :=
  if !(truthy ipv4 || truthy ipv6) then ([], .skipped)
  else
    let _ := region
    let changes := buildChanges record_name ipv4 ipv6
    let calls := [NetCall.route53Upsert zone_id "Automated DDNS update" changes]
    match outcome with
    | .success cid => (calls, .submitted (cid.getD "N/A"))
    | .noCredentials => (calls, .credentialsError)
    | .clientError msg => (calls, .providerError msg)

/-- Environment of Flow B (`src/unifi_ddns/main.py`), each variable as
`os.getenv` sees it. -/
structure ConfigB where
  UNIFI_IP : Option String
  UNIFI_PORT : Option String
  UNIFI_USER : Option String
  UNIFI_PASS : Option String
  UNIFI_SITE_ID : Option String
  UNIFI_VERIFY_SSL : Option String
  ROUTE53_ZONE_ID : Option String
  ROUTE53_RECORD_NAME : Option String
  AWS_REGION : Option String
deriving DecidableEq

/-- Outcomes of the three outbound calls Flow B can make. -/
structure WorldB where
  login : LoginResult
  devices : DeviceListResult
  route53 : Route53Outcome
deriving DecidableEq

/-- Observable result of one run: process exit code, network calls issued,
and the DNS step's report (`none` when the DNS updater never ran). -/
structure RunResult where
  exitCode : Nat
  calls : List NetCall
  dnsReport : Option UpdateReport
deriving DecidableEq

/-- The validation `all([unifi_ip, api_user, api_pass, route53_zone_id,
route53_record_name])` in `main` of `src/unifi_ddns/main.py`. -/
def configB_valid (cfg : ConfigB) : Bool :=
  truthy cfg.UNIFI_IP && truthy cfg.UNIFI_USER && truthy cfg.UNIFI_PASS &&
  truthy cfg.ROUTE53_ZONE_ID && truthy cfg.ROUTE53_RECORD_NAME

/-- Embeds `main` of `src/unifi_ddns/main.py`: validate configuration
(exit 1, no calls, when incomplete), log in (exit 1 on failure), fetch the
device list and pick a gateway (exit 1 when none), extract the WAN
addresses, run the Route53 update, then fall off `main` and exit 0. -/
def mainB (cfg : ConfigB) (w : WorldB) : RunResult :=
  if !configB_valid cfg then ⟨1, [], none⟩
  else if !unifi_login w.login then ⟨1, [NetCall.unifiLogin], none⟩
  else
    match get_gateway_info w.devices with
    | none => ⟨1, [NetCall.unifiLogin, NetCall.deviceList], none⟩
    | some gw =>
        let res := update_route53_records (cfg.ROUTE53_ZONE_ID.getD "")
          (cfg.ROUTE53_RECORD_NAME.getD "") (extract_ipv4 gw) (extract_ipv6 gw)
          (cfg.AWS_REGION.getD "us-east-1") w.route53
        ⟨0, [NetCall.unifiLogin, NetCall.deviceList] ++ res.1, some res.2⟩

/-- Outcome of the echo-endpoint GET in Flow A. -/
inductive EchoResult where
  | transportError
  | response (status : Nat) (body : String)
deriving DecidableEq

/-- Embeds `get_public_ip` from `src/main.py`: any exception (transport
failure or `raise_for_status` on a 400-599 status) yields `None`; otherwise
the response body stripped of surrounding whitespace. -/
def get_public_ip : EchoResult → Option String
  | .transportError => none
  | .response status body =>
      if 400 ≤ status ∧ status < 600 then none
      else some (pyStrip body)

/-- Outcome of the `change_resource_record_sets` call in Flow A: success
with the returned `ChangeInfo.Status`, or any raised exception with its
message (all are caught by the bare `except Exception`). -/
inductive DnsOutcomeA where
  | success (status : String)
  | failure (message : String)
deriving DecidableEq

/-- What `update_dns` of `src/main.py` prints about the DNS step. -/
inductive ReportA where
  | initiated (status : String)
  | updateError (message : String)
deriving DecidableEq

/-- Embeds `update_dns` from `src/main.py`: one batched call with comment
"Updated by Docker DDNS Client" holding a single UPSERT A record with TTL
300; every exception is caught and reported, the function returns normally. -/
def update_dns (ip zone_id record_name : String) (outcome : DnsOutcomeA) :
    List NetCall × ReportA :=
  let change : Change :=
    { action := "UPSERT",
      recordSet := { name := record_name, rtype := "A", ttl := 300, values := [ip] } }
  ([NetCall.route53Upsert zone_id "Updated by Docker DDNS Client" [change]],
    match outcome with
    | .success st => .initiated st
    | .failure msg => .updateError msg)

/-- Environment of Flow A (`src/main.py`). -/
structure ConfigA where
  HOSTED_ZONE_ID : Option String
  RECORD_NAME : Option String
deriving DecidableEq

/-- Outcomes of the two outbound calls Flow A can make. -/
structure WorldA where
  echo : EchoResult
  route53 : DnsOutcomeA
deriving DecidableEq

/-- Observable result of one Flow A run. -/
structure RunResultA where
  exitCode : Nat
  calls : List NetCall
  report : Option ReportA
deriving DecidableEq

/-- Embeds the `__main__` block of `src/main.py`: exit 1 before any network
call when `HOSTED_ZONE_ID` or `RECORD_NAME` is unset or empty; otherwise
fetch the public IP, and only when it is truthy run `update_dns`; the
script then ends, exiting 0. -/
def mainA (cfg : ConfigA) (w : WorldA) : RunResultA :=
  if !(truthy cfg.HOSTED_ZONE_ID && truthy cfg.RECORD_NAME) then ⟨1, [], none⟩
  else
    let current_ip := get_public_ip w.echo
    if truthy current_ip then
      let res := update_dns (current_ip.getD "") (cfg.HOSTED_ZONE_ID.getD "")
        (cfg.RECORD_NAME.getD "") w.route53
      ⟨0, NetCall.echoGet :: res.1, some res.2⟩
    else ⟨0, [NetCall.echoGet], none⟩

/-! ### Derived observations on a run's call list -/

/-- True when the call list contains a device-list request. -/
def callsDeviceList (calls : List NetCall) : Bool :=
  calls.any fun c => match c with
    | .deviceList => true
    | _ => false

/-- True when the call list contains a Route53 upsert submission. -/
def callsUpsert (calls : List NetCall) : Bool :=
  calls.any fun c => match c with
    | .route53Upsert _ _ _ => true
    | _ => false

/-- Number of change entries of a given record type in a change list. -/
def countType (cs : List Change) (t : String) : Nat :=
  (cs.filter (fun c => c.recordSet.rtype == t)).length

/-! ### Concrete fixtures used by witnesses and counterexamples -/

/-- WAN descriptor of the example gateway from the spec's test vector. -/
def udmWan : WanInfo :=
  { ip := some "198.51.100.4",
    ipv6 := Ipv6Field.someList ["2001:db8::1", "2001:db8::2"] }

/-- The spec's example gateway device of type "udm". -/
def udmExample : Device :=
  { type := some "udm", name := some "Dream Machine", model := some "UDM",
    wan1 := some udmWan }

/-- A gateway device whose `wan1` sub-object is entirely missing. -/
def gwNoWan : Device :=
  { type := some "ugw", name := none, model := none, wan1 := none }

/-- A non-gateway device (a switch). -/
def switchDevice : Device :=
  { type := some "usw", name := some "Office Switch", model := some "USW",
    wan1 := none }

/-- A complete Flow B configuration. -/
def cfgB_ok : ConfigB :=
  { UNIFI_IP := some "192.168.1.1", UNIFI_PORT := some "443",
    UNIFI_USER := some "ddns", UNIFI_PASS := some "hunter2",
    UNIFI_SITE_ID := some "default", UNIFI_VERIFY_SSL := none,
    ROUTE53_ZONE_ID := some "Z123", ROUTE53_RECORD_NAME := some "home.example.com",
    AWS_REGION := none }

/-- A Flow B configuration with the UniFi username unset. -/
def cfgB_noUser : ConfigB :=
  { cfgB_ok with UNIFI_USER := none }

/-- A world in which the Route53 submission is rejected by the provider. -/
def worldB_clientError : WorldB :=
  { login := .status 200, devices := .ok [udmExample],
    route53 := .clientError "The specified hosted zone does not exist" }

/-- A world in which the login answers a redirect status 303. -/
def worldB_redirect : WorldB :=
  { login := .status 303, devices := .ok [udmExample],
    route53 := .success (some "/change/C123") }

/-- A world in which the login is rejected with status 401. -/
def worldB_401 : WorldB :=
  { login := .status 401, devices := .ok [udmExample],
    route53 := .success none }

/-- A world whose device list holds only a non-gateway device. -/
def worldB_noGateway : WorldB :=
  { login := .status 200, devices := .ok [switchDevice],
    route53 := .success none }

/-- A world whose gateway device has no WAN sub-object. -/
def worldB_noWan : WorldB :=
  { login := .status 200, devices := .ok [gwNoWan],
    route53 := .success none }

/-- A complete Flow A configuration. -/
def cfgA_ok : ConfigA :=
  { HOSTED_ZONE_ID := some "Z9", RECORD_NAME := some "ddns.example.com" }

/-- A Flow A world where the DNS submission raises. -/
def worldA_failure : WorldA :=
  { echo := .response 200 "203.0.113.7\n", route53 := .failure "AccessDenied" }

/-- A Flow A world where the echo service answers 200 with an empty body. -/
def worldA_emptyBody : WorldA :=
  { echo := .response 200 "", route53 := .success "PENDING" }

/-! ### Helper lemmas about the gateway scan -/

lemma find_gateway_first : ∀ (ds : List Device) (d : Device), find_gateway ds = some d →
    ∃ pre post, ds = pre ++ d :: post ∧ (∀ x ∈ pre, isGatewayDevice x = false) ∧
      isGatewayDevice d = true := by
  intro ds
  induction ds with
  | nil => intro d h; simp [find_gateway] at h
  | cons x rest ih =>
    intro d h
    cases hx : isGatewayDevice x with
    | true =>
      rw [find_gateway, if_pos hx] at h
      cases h
      refine ⟨[], rest, rfl, ?_, hx⟩
      intro y hy
      cases hy
    | false =>
      rw [find_gateway, if_neg (by simp [hx])] at h
      obtain ⟨pre, post, heq, hpre, hd⟩ := ih d h
      refine ⟨x :: pre, post, by simp [heq], ?_, hd⟩
      intro y hy
      rcases List.mem_cons.mp hy with h1 | h2
      · subst h1; exact hx
      · exact hpre y h2

lemma find_gateway_none (ds : List Device) (h : ∀ d ∈ ds, isGatewayDevice d = false) :
    find_gateway ds = none := by
  induction ds with
  | nil => rfl
  | cons x rest ih =>
    rw [find_gateway, if_neg (by simp [h x (List.mem_cons_self x rest)])]
    exact ih fun d hd => h d (List.mem_cons_of_mem x hd)

/-! ### Claims -/

/-- C9: the TLS-verification flag parser returns true exactly for the
case-insensitive tokens true, 1, t, y, yes, and false for every other
string and for an absent value. -/
theorem C9_str_to_bool_tokens :
    str_to_bool none = false ∧
    ∀ s, str_to_bool (some s) = true ↔
      (pyLower s = "true" ∨ pyLower s = "1" ∨ pyLower s = "t" ∨ pyLower s = "y" ∨
        pyLower s = "yes") := by
  refine ⟨rfl, ?_⟩
  intro s
  simp [str_to_bool, List.contains]

/-- C4: with at least one address present, the submitted change batch has
exactly one UPSERT directive per present address family (type A for ipv4,
type AAAA for ipv6), each with TTL 300 and the given record name, in a
single batched call against the given hosted zone. -/
theorem C4_change_batch (zone record region : String) (ipv4 ipv6 : Option String)
    (outcome : Route53Outcome) (h : (truthy ipv4 || truthy ipv6) = true) :
    ∃ changes,
      (update_route53_records zone record ipv4 ipv6 region outcome).1 =
        [NetCall.route53Upsert zone "Automated DDNS update" changes] ∧
      countType changes "A" = (if truthy ipv4 then 1 else 0) ∧
      countType changes "AAAA" = (if truthy ipv6 then 1 else 0) ∧
      (∀ c ∈ changes, c.action = "UPSERT" ∧ c.recordSet.ttl = 300 ∧
        c.recordSet.name = record) := by
  refine ⟨buildChanges record ipv4 ipv6, ?_, ?_, ?_, ?_⟩
  · cases outcome <;> simp [update_route53_records, h]
  · cases h4 : truthy ipv4 <;> cases h6 : truthy ipv6 <;>
      simp [countType, buildChanges, h4, h6]
  · cases h4 : truthy ipv4 <;> cases h6 : truthy ipv6 <;>
      simp [countType, buildChanges, h4, h6]
  · intro c hc
    cases h4 : truthy ipv4 <;> cases h6 : truthy ipv6 <;>
      simp [buildChanges, h4, h6] at hc <;>
      rcases hc with hc | hc <;> subst_vars <;> exact ⟨rfl, rfl, rfl⟩

/-- Witness for C4: ipv4 present and ipv6 absent yields exactly one A
directive and no AAAA directive. -/
theorem C4_change_batch_witness :
    ∃ changes,
      (update_route53_records "Z123" "home.example.com" (some "203.0.113.7") none
          "us-east-1" (Route53Outcome.success none)).1 =
        [NetCall.route53Upsert "Z123" "Automated DDNS update" changes] ∧
      countType changes "A" = (if truthy (some "203.0.113.7") then 1 else 0) ∧
      countType changes "AAAA" = (if truthy (none : Option String) then 1 else 0) ∧
      (∀ c ∈ changes, c.action = "UPSERT" ∧ c.recordSet.ttl = 300 ∧
        c.recordSet.name = "home.example.com") :=
  C4_change_batch "Z123" "home.example.com" "us-east-1" (some "203.0.113.7") none
    (Route53Outcome.success none) (by decide)

/-- C5: gateway selection picks the first device in listed order whose type
tag is in the fixed gateway set; from it, IPv4 is the WAN sub-object's IP
field and IPv6 is element 0 of its IPv6 list; the spec's "udm" example
yields ipv4 = 198.51.100.4 and ipv6 = 2001:db8::1. -/
theorem C5_gateway_selection_and_extraction :
    (∀ ds d, find_gateway ds = some d →
        ∃ pre post, ds = pre ++ d :: post ∧ (∀ x ∈ pre, isGatewayDevice x = false) ∧
          isGatewayDevice d = true) ∧
    (∀ d wan, d.wan1 = some wan → extract_ipv4 d = wan.ip) ∧
    (∀ d wan a rest, d.wan1 = some wan → wan.ipv6 = Ipv6Field.someList (a :: rest) →
        extract_ipv6 d = some a) ∧
    find_gateway [udmExample] = some udmExample ∧
    isGatewayDevice udmExample = true ∧
    extract_ipv4 udmExample = some "198.51.100.4" ∧
    extract_ipv6 udmExample = some "2001:db8::1" := by
  refine ⟨find_gateway_first, ?_, ?_, by decide, by decide, by decide, by decide⟩
  · intro d wan h
    simp [extract_ipv4, h]
  · intro d wan a rest h h6
    simp [extract_ipv6, h, h6]

/-- Witness for C5: the extraction clauses applied to the spec's "udm"
example device. -/
theorem C5_gateway_selection_witness :
    extract_ipv4 udmExample = udmWan.ip ∧ extract_ipv6 udmExample = some "2001:db8::1" :=
  ⟨C5_gateway_selection_and_extraction.2.1 udmExample udmWan rfl,
   C5_gateway_selection_and_extraction.2.2.1 udmExample udmWan "2001:db8::1"
     ["2001:db8::2"] rfl rfl⟩

/-- C6: a device list with no gateway-typed device is fatal: exit code 1
and no DNS upsert call. -/
theorem C6_no_gateway_fatal (cfg : ConfigB) (w : WorldB) (ds : List Device)
    (hv : configB_valid cfg = true) (hl : unifi_login w.login = true)
    (hd : w.devices = DeviceListResult.ok ds)
    (hnone : ∀ d ∈ ds, isGatewayDevice d = false) :
    (mainB cfg w).exitCode = 1 ∧ callsUpsert (mainB cfg w).calls = false := by
  have hg : get_gateway_info w.devices = none := by
    rw [hd]
    exact find_gateway_none ds hnone
  simp [mainB, hv, hl, hg, callsUpsert]

/-- Witness for C6: a device list holding only a switch. -/
theorem C6_no_gateway_fatal_witness :
    (mainB cfgB_ok worldB_noGateway).exitCode = 1 ∧
    callsUpsert (mainB cfgB_ok worldB_noGateway).calls = false :=
  C6_no_gateway_fatal cfgB_ok worldB_noGateway [switchDevice] (by decide) (by decide)
    (by decide) (by decide)

/-- C7: with both addresses absent the DNS updater performs no provider
call and reports a skip, and the run still exits 0. -/
theorem C7_skip_when_both_absent :
    (∀ zone record region outcome,
        update_route53_records zone record none none region outcome =
          ([], UpdateReport.skipped)) ∧
    (∀ cfg w gw, configB_valid cfg = true → unifi_login w.login = true →
        get_gateway_info w.devices = some gw →
        extract_ipv4 gw = none → extract_ipv6 gw = none →
        (mainB cfg w).exitCode = 0 ∧
        (mainB cfg w).dnsReport = some UpdateReport.skipped ∧
        callsUpsert (mainB cfg w).calls = false) := by
  constructor
  · intro zone record region outcome
    rfl
  · intro cfg w gw hv hl hg h4 h6
    simp [mainB, hv, hl, hg, update_route53_records, h4, h6, truthy, callsUpsert]

/-- Witness for C7: a run whose gateway reports no WAN addresses. -/
theorem C7_skip_when_both_absent_witness :
    (mainB cfgB_ok worldB_noWan).exitCode = 0 ∧
    (mainB cfgB_ok worldB_noWan).dnsReport = some UpdateReport.skipped ∧
    callsUpsert (mainB cfgB_ok worldB_noWan).calls = false :=
  C7_skip_when_both_absent.2 cfgB_ok worldB_noWan gwNoWan (by decide) (by decide)
    (by decide) (by decide) (by decide)

theorem C2_missing_config_no_calls :
    (∀ cfg w,
        (cfg.UNIFI_IP = none ∨ cfg.UNIFI_IP = some "" ∨
         cfg.UNIFI_USER = none ∨ cfg.UNIFI_USER = some "" ∨
         cfg.UNIFI_PASS = none ∨ cfg.UNIFI_PASS = some "" ∨
         cfg.ROUTE53_ZONE_ID = none ∨ cfg.ROUTE53_ZONE_ID = some "" ∨
         cfg.ROUTE53_RECORD_NAME = none ∨ cfg.ROUTE53_RECORD_NAME = some "") →
        mainB cfg w = ⟨1, [], none⟩) ∧
    (∀ cfg w,
        (cfg.HOSTED_ZONE_ID = none ∨ cfg.HOSTED_ZONE_ID = some "" ∨
         cfg.RECORD_NAME = none ∨ cfg.RECORD_NAME = some "") →
        mainA cfg w = ⟨1, [], none⟩) := by
  constructor
  · intro cfg w h
    rcases h with h | h | h | h | h | h | h | h | h | h <;>
      simp [mainB, configB_valid, truthy, h]
  · intro cfg w h
    rcases h with h | h | h | h <;> simp [mainA, truthy, h]

theorem C2_missing_config_no_calls_witness :
    mainB cfgB_noUser worldB_401 = ⟨1, [], none⟩ ∧
    mainA { HOSTED_ZONE_ID := none, RECORD_NAME := some "ddns.example.com" }
      worldA_failure = ⟨1, [], none⟩ :=
  ⟨C2_missing_config_no_calls.1 cfgB_noUser worldB_401
      (Or.inr (Or.inr (Or.inl rfl))),
   C2_missing_config_no_calls.2 _ worldA_failure (Or.inl rfl)⟩

theorem C3_counterexample :
    unifi_login (LoginResult.status 303) = true ∧
    ¬(200 ≤ 303 ∧ 303 < 300) ∧
    callsDeviceList (mainB cfgB_ok worldB_redirect).calls = true ∧
    (mainB cfgB_ok worldB_redirect).exitCode = 0 := by
  decide

theorem C3_amended_login_gate (cfg : ConfigB) (w : WorldB)
    (hv : configB_valid cfg = true) :
    ((w.login = LoginResult.transportError ∨
      (∃ s, w.login = LoginResult.status s ∧ 400 ≤ s ∧ s < 600)) →
      (mainB cfg w).exitCode = 1 ∧ (mainB cfg w).calls = [NetCall.unifiLogin]) ∧
    (∀ s, w.login = LoginResult.status s → (s < 400 ∨ 600 ≤ s) →
      callsDeviceList (mainB cfg w).calls = true) := by
  constructor
  · intro h
    have hl : unifi_login w.login = false := by
      rcases h with h | ⟨s, hs, h4, h6⟩
      · rw [h]; rfl
      · rw [hs]
        simp only [unifi_login]
        split_ifs with a b
        · rfl
        · rfl
        · exact absurd ⟨h4, h6⟩ b
    simp [mainB, hv, hl]
  · intro s hs hrange
    have h401 : (s == 401) = false := by
      simp only [beq_eq_false_iff_ne, ne_eq]
      omega
    have hrange2 : ¬(400 ≤ s ∧ s < 600) := by omega
    have hl : unifi_login w.login = true := by
      rw [hs]
      simp [unifi_login, h401, hrange2]
    cases hg : get_gateway_info w.devices <;>
      simp [mainB, hv, hl, hg, callsDeviceList]

theorem C3_amended_login_gate_witness :
    (mainB cfgB_ok worldB_401).exitCode = 1 ∧
    (mainB cfgB_ok worldB_401).calls = [NetCall.unifiLogin] :=
  (C3_amended_login_gate cfgB_ok worldB_401 (by decide)).1
    (Or.inr ⟨401, rfl, by decide, by decide⟩)

theorem C1_counterexample :
    (mainB cfgB_ok worldB_clientError).dnsReport =
      some (UpdateReport.providerError "The specified hosted zone does not exist") ∧
    callsUpsert (mainB cfgB_ok worldB_clientError).calls = true ∧
    (mainB cfgB_ok worldB_clientError).exitCode = 0 ∧
    (mainA cfgA_ok worldA_failure).report = some (ReportA.updateError "AccessDenied") ∧
    (mainA cfgA_ok worldA_failure).exitCode = 0 := by
  decide

theorem C1_amended_dns_failure_nonfatal :
    (∀ cfg w gw msg, configB_valid cfg = true → unifi_login w.login = true →
        get_gateway_info w.devices = some gw →
        (truthy (extract_ipv4 gw) || truthy (extract_ipv6 gw)) = true →
        w.route53 = Route53Outcome.clientError msg →
        (mainB cfg w).exitCode = 0 ∧
        (mainB cfg w).dnsReport = some (UpdateReport.providerError msg)) ∧
    (∀ cfg w gw, configB_valid cfg = true → unifi_login w.login = true →
        get_gateway_info w.devices = some gw →
        (truthy (extract_ipv4 gw) || truthy (extract_ipv6 gw)) = true →
        w.route53 = Route53Outcome.noCredentials →
        (mainB cfg w).exitCode = 0 ∧
        (mainB cfg w).dnsReport = some UpdateReport.credentialsError) ∧
    (∀ cfg w msg, truthy cfg.HOSTED_ZONE_ID = true → truthy cfg.RECORD_NAME = true →
        truthy (get_public_ip w.echo) = true →
        w.route53 = DnsOutcomeA.failure msg →
        (mainA cfg w).exitCode = 0 ∧
        (mainA cfg w).report = some (ReportA.updateError msg)) := by
  refine ⟨?_, ?_, ?_⟩
  · intro cfg w gw msg hv hl hg hip hr
    simp [mainB, hv, hl, hg, update_route53_records, hip, hr]
  · intro cfg w gw hv hl hg hip hr
    simp [mainB, hv, hl, hg, update_route53_records, hip, hr]
  · intro cfg w msg hz hr hip hout
    simp [mainA, hz, hr, hip, update_dns, hout]

theorem C1_amended_witness :
    (mainB cfgB_ok worldB_clientError).exitCode = 0 ∧
    (mainB cfgB_ok worldB_clientError).dnsReport =
      some (UpdateReport.providerError "The specified hosted zone does not exist") :=
  C1_amended_dns_failure_nonfatal.1 cfgB_ok worldB_clientError udmExample
    "The specified hosted zone does not exist" (by decide) (by decide) (by decide)
    (by decide) (by decide)

theorem C8_counterexample :
    get_public_ip (EchoResult.response 200 "") = some "" ∧
    get_public_ip (EchoResult.response 303 "203.0.113.7\n") = some "203.0.113.7" ∧
    (mainA cfgA_ok worldA_emptyBody).exitCode = 0 ∧
    callsUpsert (mainA cfgA_ok worldA_emptyBody).calls = false := by
  decide

theorem C8_amended_echo_extraction :
    (∀ s body, ¬(400 ≤ s ∧ s < 600) →
        get_public_ip (EchoResult.response s body) = some (pyStrip body)) ∧
    (∀ s body, 400 ≤ s → s < 600 → get_public_ip (EchoResult.response s body) = none) ∧
    get_public_ip EchoResult.transportError = none ∧
    (∀ cfg w, truthy cfg.HOSTED_ZONE_ID = true → truthy cfg.RECORD_NAME = true →
        truthy (get_public_ip w.echo) = false →
        (mainA cfg w).exitCode = 0 ∧ callsUpsert (mainA cfg w).calls = false ∧
        (mainA cfg w).report = none) := by
  refine ⟨?_, ?_, rfl, ?_⟩
  · intro s body h
    simp [get_public_ip, h]
  · intro s body h4 h6
    simp [get_public_ip, h4, h6]
  · intro cfg w hz hr hip
    simp [mainA, hz, hr, hip, callsDeviceList, callsUpsert]

theorem C8_amended_witness :
    get_public_ip (EchoResult.response 200 "203.0.113.7\n") =
      some (pyStrip "203.0.113.7\n") :=
  C8_amended_echo_extraction.1 200 "203.0.113.7\n" (by decide)

theorem C10_extraction_total :
    (∀ d, d.wan1 = none → extract_ipv4 d = none ∧ extract_ipv6 d = none) ∧
    (∀ d wan, d.wan1 = some wan → wan.ip = none → extract_ipv4 d = none) ∧
    (∀ d wan, d.wan1 = some wan →
        (wan.ipv6 = Ipv6Field.absent ∨ wan.ipv6 = Ipv6Field.notAList ∨
         wan.ipv6 = Ipv6Field.someList []) → extract_ipv6 d = none) ∧
    (∀ d a, extract_ipv6 d = some a →
        ∃ wan rest, d.wan1 = some wan ∧ wan.ipv6 = Ipv6Field.someList (a :: rest)) ∧
    (∀ cfg w gw, configB_valid cfg = true → unifi_login w.login = true →
        get_gateway_info w.devices = some gw → gw.wan1 = none →
        (mainB cfg w).exitCode = 0 ∧
        (mainB cfg w).dnsReport = some UpdateReport.skipped) := by
  refine ⟨?_, ?_, ?_, ?_, ?_⟩
  · intro d h
    simp [extract_ipv4, extract_ipv6, h, emptyWan]
  · intro d wan h hip
    simp [extract_ipv4, h, hip]
  · intro d wan h h6
    rcases h6 with h6 | h6 | h6 <;> simp [extract_ipv6, h, h6]
  · intro d a h
    rw [extract_ipv6] at h
    cases hw : d.wan1 with
    | none =>
      rw [hw] at h
      simp [emptyWan] at h
    | some wan =>
      rw [hw] at h
      simp only [Option.getD_some] at h
      cases hi : wan.ipv6 with
      | absent => rw [hi] at h; simp at h
      | notAList => rw [hi] at h; simp at h
      | someList addrs =>
        cases addrs with
        | nil => rw [hi] at h; simp at h
        | cons a0 rest =>
          rw [hi] at h
          simp at h
          subst h
          exact ⟨wan, rest, rfl, hi⟩
  · intro cfg w gw hv hl hg hw
    have h4 : extract_ipv4 gw = none := by simp [extract_ipv4, hw, emptyWan]
    have h6 : extract_ipv6 gw = none := by simp [extract_ipv6, hw, emptyWan]
    simp [mainB, hv, hl, hg, update_route53_records, h4, h6, truthy]

theorem C10_extraction_total_witness :
    extract_ipv4 gwNoWan = none ∧ extract_ipv6 gwNoWan = none :=
  C10_extraction_total.1 gwNoWan rfl

/-- Witness for C9: a concrete truthy token and the absent value. -/
theorem C9_str_to_bool_tokens_witness :
    str_to_bool (some "TRUE") = true ∧ str_to_bool none = false :=
  ⟨(C9_str_to_bool_tokens.2 "TRUE").mpr (Or.inl (by decide)),
   C9_str_to_bool_tokens.1⟩
